import Mathlib

/-!
Verification of the operator-dispatch core (KernelFunction) of the
repository, shallowly embedded in Lean 4.

The embedding follows aten/src/ATen/core/dispatch/KernelFunction.h:
  - the signature hasher (detail::hashType, detail::hashTypeList,
    detail::hashFunctionSignature), with uint64 arithmetic modelled as
    Nat with explicit reduction modulo 2^64;
  - the KernelFunction wrapper with its fields functorCreator_,
    functor_, boxed_kernel_func_, unboxed_kernel_func_, signature_hash_;
  - the three call paths callBoxed, callUnboxedOnly, callUnboxed, and
    the reverse bridge detail::boxAndCallBoxedFunc;
  - the construction factories.

Type-erased stack values (IValue) are modelled as integers, which is
sufficient for the integer kernels the specification's concrete
scenarios use.  Fatal assertions (TORCH_INTERNAL_ASSERT) are modelled
as Except errors, one constructor per distinct assertion message.
Mutation of the lazily-initialized functor_ field is modelled by
explicit state passing: every call path returns, besides its result,
the post-call wrapper state and the number of times the deferred
factory closure (functorCreator_) was invoked during the call.
-/

/-- The uint64 modulus: all C++ size_t / uint64_t arithmetic in the
signature hasher wraps modulo this value. -/
def U64 : Nat := 2 ^ 64

/-- A C++ type as seen by detail::hashType: its typeid hash_code
together with the four qualifier bits the hasher inspects
(std::is_lvalue_reference, std::is_rvalue_reference, and const /
volatile of the unreferenced type). -/
structure CppType where
  typeIdHash : Nat
  isLValueRef : Bool
  isRValueRef : Bool
  isConst : Bool
  isVolatile : Bool
  deriving DecidableEq, Repr

/-- detail::hashType: the type identity hash plus distinct additive
weights for the four qualifiers, in uint64 arithmetic. -/
def hashType (t : CppType) : Nat :=
  (t.typeIdHash
    + 1000 * t.isLValueRef.toNat
    + 5000 * t.isRValueRef.toNat
    + 10000 * t.isConst.toNat
    + 15000 * t.isVolatile.toNat) % U64

/-- detail::hashTypeList_ recursion: each element contributes
1000000 * index * hashType, the index starting at the given value and
increasing towards the tail; the empty list contributes zero.  The
whole expression is uint64 arithmetic, hence the reduction modulo 2^64
at every combining step. -/
def hashTypeListAux : List CppType → Nat → Nat
  | [], _ => 0
  | t :: ts, index =>
      (1000000 * index * hashType t + hashTypeListAux ts (index + 1)) % U64

/-- detail::hashTypeList: the recursion started at index 1. -/
def hashTypeList (l : List CppType) : Nat :=
  hashTypeListAux l 1

/-- A function signature as the hasher sees it: the return type
followed by the parameter types in order. -/
structure FuncSignature where
  ret : CppType
  params : List CppType
  deriving DecidableEq, Repr

/-- detail::hashFunctionSignature: hash of the list consisting of the
return type first and then the parameter types in order. -/
def hashFunctionSignature (sig : FuncSignature) : Nat :=
  hashTypeList (sig.ret :: sig.params)

/-- The mathematical (non-wrapping) weighted sum the specification
describes: position-dependent multiplier 1000000 * position times the
per-type hash, accumulated tail-first, the empty list contributing
zero.  Reduction modulo 2^64 is applied once, by the theorem relating
this to hashTypeListAux, rather than at every step. -/
def sigWeightedSum : List CppType → Nat → Nat
  | [], _ => 0
  | t :: ts, pos => 1000000 * pos * hashType t + sigWeightedSum ts (pos + 1)

/-- A type-erased stack value (c10::IValue), modelled as an integer. -/
abbrev IValue := Int

/-- The generic argument stack (c10::Stack): an ordered sequence of
type-erased values. -/
abbrev Stack := List IValue

/-- A kernel-storage instance (c10::OperatorKernel together with the
concrete functor state it carries): exposes the functor's call
operator, type-erased to a list of argument values and an optional
result value (none models a void return). -/
structure OperatorKernel where
  call : List IValue → Option IValue

/-- KernelFunction::BoxedKernelFunction: void(OperatorKernel*, Stack*).
The receiver pointer may be null (modelled by none); the stack is
passed in and the mutated stack is returned. -/
abbrev BoxedKernelFunction := Option OperatorKernel → Stack → Stack

/-- The unboxed kernel entry after reinterpretation at the call site:
Return (OperatorKernel*, Args...).  Arguments and result are
type-erased to IValue lists; a none result models a void return. -/
abbrev UnboxedKernelFunction := Option OperatorKernel → List IValue → Option IValue

/-- The distinct fatal-assertion messages (TORCH_INTERNAL_ASSERT) of the
dispatch core, one constructor per message. -/
inductive KernelError where
  /-- callBoxed on an uninitialized KernelFunction (neither entry). -/
  | callBoxedUninitialized
  /-- callBoxed on a KernelFunction that can only be called with
  callUnboxed (unboxed entry present, boxed entry absent). -/
  | callBoxedUnboxedOnly
  /-- called with wrong argument types: caller signature hash differs
  from the stored signature_hash_. -/
  | wrongSignature
  /-- callUnboxedOnly for a kernel without an unboxed version. -/
  | noUnboxedVersion
  /-- callUnboxed on an uninitialized KernelFunction (neither entry). -/
  | callUnboxedUninitialized
  /-- reverse bridge, value return: the boxed kernel left a stack whose
  size is not one. -/
  | boxedStackSizeNotOne
  /-- reverse bridge, void return: the boxed kernel left a non-empty
  stack. -/
  | boxedStackNotEmpty
  deriving DecidableEq, Repr

/-- The KernelFunction wrapper state: its five fields, as in the
private constructor. -/
structure KernelFunction where
  functorCreator_ : Option (Unit → OperatorKernel)
  functor_ : Option OperatorKernel
  boxed_kernel_func_ : Option BoxedKernelFunction
  unboxed_kernel_func_ : Option UnboxedKernelFunction
  signature_hash_ : Option Nat

/-- The default constructor KernelFunction(): every field empty. -/
def KernelFunction.defaultCtor : KernelFunction :=
  ⟨none, none, none, none, none⟩

/-- KernelFunction::isValid: at least one of the two entries present. -/
def KernelFunction.isValid (k : KernelFunction) : Bool :=
  k.boxed_kernel_func_.isSome || k.unboxed_kernel_func_.isSome

/-- Result of resolving the kernel-storage receiver via getFunctor_:
the receiver pointer, the post-call wrapper state (functor_ may have
been populated), and how many times functorCreator_ was invoked. -/
structure FunctorResolution where
  receiver : Option OperatorKernel
  post : KernelFunction
  creatorCalls : Nat

/-- KernelFunction::getFunctor_: if functor_ is null and
functorCreator_ is absent, return null; if functor_ is null and
functorCreator_ is present, invoke the creator once and store the
result in functor_; otherwise return the stored functor_. -/
def KernelFunction.getFunctor_ (k : KernelFunction) : FunctorResolution :=
  match k.functor_ with
  | some f => ⟨some f, k, 0⟩
  | none =>
    match k.functorCreator_ with
    | none => ⟨none, k, 0⟩
    | some c =>
      let f := c ()
      ⟨some f, { k with functor_ := some f }, 1⟩

/-- Result of one call-path invocation: the call outcome (fatal
assertions as errors), the post-call wrapper state, and the number of
functorCreator_ invocations during the call. -/
structure CallResult (α : Type) where
  res : Except KernelError α
  post : KernelFunction
  creatorCalls : Nat

/-- The signature cross-check of callUnboxed / callUnboxedOnly: it
fires exactly when signature_hash_ is present and differs from the
hash of the caller's declared signature. -/
def KernelFunction.signatureMismatch (k : KernelFunction) (sig : FuncSignature) : Bool :=
  match k.signature_hash_ with
  | none => false
  | some h => hashFunctionSignature sig != h

/-- KernelFunction::callBoxed: requires the boxed entry; if absent,
fails distinguishing the totally-uninitialized wrapper from the
unboxed-only wrapper; otherwise resolves the receiver and invokes the
boxed entry on it with the given stack. -/
def KernelFunction.callBoxed (k : KernelFunction) (stack : Stack) : CallResult Stack :=
  match k.boxed_kernel_func_ with
  | none =>
    match k.unboxed_kernel_func_ with
    | none => ⟨.error .callBoxedUninitialized, k, 0⟩
    | some _ => ⟨.error .callBoxedUnboxedOnly, k, 0⟩
  | some bf =>
    let r := k.getFunctor_
    ⟨.ok (bf r.receiver stack), r.post, r.creatorCalls⟩

/-- KernelFunction::callUnboxedOnly: signature cross-check first; then
the unboxed entry if present; fatal otherwise. -/
def KernelFunction.callUnboxedOnly (k : KernelFunction) (sig : FuncSignature)
    (args : List IValue) : CallResult (Option IValue) :=
  if k.signatureMismatch sig then ⟨.error .wrongSignature, k, 0⟩
  else
    match k.unboxed_kernel_func_ with
    | some uf =>
      let r := k.getFunctor_
      ⟨.ok (uf r.receiver args), r.post, r.creatorCalls⟩
    | none => ⟨.error .noUnboxedVersion, k, 0⟩

/-- detail::boxAndCallBoxedFunc (value-returning instantiation): box
the arguments onto a transient stack, invoke the boxed entry, assert
the stack holds exactly one value and extract it. -/
def boxAndCallBoxedFunc (bf : BoxedKernelFunction) (receiver : Option OperatorKernel)
    (args : List IValue) : Except KernelError IValue :=
  let stack : Stack := args
  match bf receiver stack with
  | [x] => .ok x
  | _ => .error .boxedStackSizeNotOne

/-- detail::boxAndCallBoxedFunc (void instantiation): box the
arguments, invoke the boxed entry, assert the stack is empty. -/
def boxAndCallBoxedFuncVoid (bf : BoxedKernelFunction) (receiver : Option OperatorKernel)
    (args : List IValue) : Except KernelError Unit :=
  let stack : Stack := args
  match bf receiver stack with
  | [] => .ok ()
  | _ => .error .boxedStackNotEmpty

/-- KernelFunction::callUnboxed, value-returning instantiation:
signature cross-check; fast path through the unboxed entry if present;
otherwise fatal if the boxed entry is also absent, else the reverse
bridge through boxAndCallBoxedFunc. -/
def KernelFunction.callUnboxed (k : KernelFunction) (sig : FuncSignature)
    (args : List IValue) : CallResult (Option IValue) :=
  if k.signatureMismatch sig then ⟨.error .wrongSignature, k, 0⟩
  else
    match k.unboxed_kernel_func_ with
    | some uf =>
      let r := k.getFunctor_
      ⟨.ok (uf r.receiver args), r.post, r.creatorCalls⟩
    | none =>
      match k.boxed_kernel_func_ with
      | none => ⟨.error .callUnboxedUninitialized, k, 0⟩
      | some bf =>
        let r := k.getFunctor_
        match boxAndCallBoxedFunc bf r.receiver args with
        | .ok v => ⟨.ok (some v), r.post, r.creatorCalls⟩
        | .error e => ⟨.error e, r.post, r.creatorCalls⟩

/-- KernelFunction::callUnboxed, void instantiation: as the
value-returning one but bridging through the void variant of
boxAndCallBoxedFunc. -/
def KernelFunction.callUnboxedVoid (k : KernelFunction) (sig : FuncSignature)
    (args : List IValue) : CallResult Unit :=
  if k.signatureMismatch sig then ⟨.error .wrongSignature, k, 0⟩
  else
    match k.unboxed_kernel_func_ with
    | some uf =>
      let r := k.getFunctor_
      let _ := uf r.receiver args
      ⟨.ok (), r.post, r.creatorCalls⟩
    | none =>
      match k.boxed_kernel_func_ with
      | none => ⟨.error .callUnboxedUninitialized, k, 0⟩
      | some bf =>
        let r := k.getFunctor_
        match boxAndCallBoxedFuncVoid bf r.receiver args with
        | .ok _ => ⟨.ok (), r.post, r.creatorCalls⟩
        | .error e => ⟨.error e, r.post, r.creatorCalls⟩

/-- Modelled from the spec: the unboxed adapter
(detail::wrap_kernel_functor_unboxed, whose source file
op_registration/kernel_functor.h is not part of this snapshot).  Per
the spec it is a function taking the kernel-storage receiver and the
typed arguments that simply forwards to the receiver's call operator.
A null receiver never arises through the factories that install this
adapter, since they always install a functor or a creator; that case
is modelled as producing no value. -/
def wrap_kernel_functor_unboxed : UnboxedKernelFunction :=
  fun receiver args =>
    match receiver with
    | some f => f.call args
    | none => none

/-- Modelled from the spec: the boxed adapter
(detail::wrap_kernel_functor_boxed, source file not in this snapshot),
generated per kernel type with its declared argument count n.  Per the
spec it pops the declared number of arguments off the stack (boxed
calls consume a suffix of length = argument count, in argument order),
invokes the kernel, and pushes exactly one return value (or zero for a
void return) back onto the stack.  A null receiver never arises
through the installing factories; that case is modelled as leaving the
stack unchanged. -/
def wrap_kernel_functor_boxed (n : Nat) : BoxedKernelFunction :=
  fun receiver stack =>
    match receiver with
    | none => stack
    | some f =>
      let rest := stack.take (stack.length - n)
      let args := stack.drop (stack.length - n)
      rest ++ (f.call args).toList

/-- KernelFunction::makeFromBoxedFunction: boxed entry only; no
functor, no creator, no unboxed entry, no signature hash. -/
def makeFromBoxedFunction (func : BoxedKernelFunction) : KernelFunction :=
  ⟨none, none, some func, none, none⟩

/-- KernelFunction::makeFromUnboxedFunctor (eager overload): stores
the functor, installs both generated adapters and the hash of the
functor's call signature.  The functor's declared argument count n and
its construction-time signature sig are the data the C++ template
derives from the functor type. -/
def makeFromUnboxedFunctor (functor : OperatorKernel) (n : Nat)
    (sig : FuncSignature) : KernelFunction :=
  ⟨none, some functor, some (wrap_kernel_functor_boxed n),
    some wrap_kernel_functor_unboxed, some (hashFunctionSignature sig)⟩

/-- KernelFunction::makeFromUnboxedFunctor (deferred-creator
overload): stores the creator instead of the functor; otherwise
identical to the eager overload. -/
def makeFromUnboxedFunctorCreator (creator : Unit → OperatorKernel) (n : Nat)
    (sig : FuncSignature) : KernelFunction :=
  ⟨some creator, none, some (wrap_kernel_functor_boxed n),
    some wrap_kernel_functor_unboxed, some (hashFunctionSignature sig)⟩

/-- KernelFunction::makeFromUnboxedOnlyFunctor: stores the functor and
the unboxed adapter but suppresses the boxed adapter. -/
def makeFromUnboxedOnlyFunctor (functor : OperatorKernel) (_n : Nat)
    (sig : FuncSignature) : KernelFunction :=
  ⟨none, some functor, none,
    some wrap_kernel_functor_unboxed, some (hashFunctionSignature sig)⟩

/-- detail::WrapRuntimeKernelFunctor: wraps a bare function or closure
into a kernel-storage type whose call operator forwards to it. -/
def WrapRuntimeKernelFunctor (f : List IValue → Option IValue) : OperatorKernel :=
  ⟨f⟩

/-- KernelFunction::makeFromUnboxedFunction (compile-time-known
function pointer): desugars to the eager functor factory on the
wrapped function. -/
def makeFromUnboxedFunction (f : List IValue → Option IValue) (n : Nat)
    (sig : FuncSignature) : KernelFunction :=
  makeFromUnboxedFunctor (WrapRuntimeKernelFunctor f) n sig

/-- KernelFunction::makeFromUnboxedOnlyFunction: desugars to the
unboxed-only functor factory on the wrapped function. -/
def makeFromUnboxedOnlyFunction (f : List IValue → Option IValue) (n : Nat)
    (sig : FuncSignature) : KernelFunction :=
  makeFromUnboxedOnlyFunctor (WrapRuntimeKernelFunctor f) n sig

/-- KernelFunction::makeFromUnboxedRuntimeFunction: desugars to the
eager functor factory on the wrapped function. -/
def makeFromUnboxedRuntimeFunction (f : List IValue → Option IValue) (n : Nat)
    (sig : FuncSignature) : KernelFunction :=
  makeFromUnboxedFunctor (WrapRuntimeKernelFunctor f) n sig

/-- KernelFunction::makeFromUnboxedLambda: desugars to the eager
functor factory on the wrapped closure. -/
def makeFromUnboxedLambda (f : List IValue → Option IValue) (n : Nat)
    (sig : FuncSignature) : KernelFunction :=
  makeFromUnboxedFunctor (WrapRuntimeKernelFunctor f) n sig

/-- A model of the C++ int type for the concrete scenarios; the typeid
hash value is process-local and arbitrary, so any fixed value serves. -/
def intType : CppType :=
  ⟨7, false, false, false, false⟩

/-- The declared signature int(int) of the boxed-only scenario. -/
def sigIntInt : FuncSignature :=
  ⟨intType, [intType]⟩

/-- The declared signature int(int, int) of the sum-kernel scenario. -/
def sigIntIntInt : FuncSignature :=
  ⟨intType, [intType, intType]⟩

/-- The boxed function of the boxed-only scenario: doubles its single
stack entry. -/
def doubleBoxed : BoxedKernelFunction :=
  fun _ stack => stack.map (fun x => 2 * x)

/-- The kernel-storage instance of the cross-path scenario: its call
operator takes two integers and returns their sum. -/
def sumKernel : OperatorKernel :=
  ⟨fun args =>
    match args with
    | [a, b] => some (a + b)
    | _ => none⟩

/-- One invocation of a KernelFunction entry point, for reasoning
about sequences of calls on the same wrapper. -/
inductive CallOp where
  | boxedCall (stack : Stack)
  | unboxedOnlyCall (sig : FuncSignature) (args : List IValue)
  | unboxedCall (sig : FuncSignature) (args : List IValue)
  | unboxedVoidCall (sig : FuncSignature) (args : List IValue)

/-- The state effect of one entry-point invocation: the post-call
wrapper state and the number of functorCreator_ invocations during the
call. -/
def applyOp (k : KernelFunction) : CallOp → KernelFunction × Nat
  | .boxedCall s => ((k.callBoxed s).post, (k.callBoxed s).creatorCalls)
  | .unboxedOnlyCall sig args =>
      ((k.callUnboxedOnly sig args).post, (k.callUnboxedOnly sig args).creatorCalls)
  | .unboxedCall sig args =>
      ((k.callUnboxed sig args).post, (k.callUnboxed sig args).creatorCalls)
  | .unboxedVoidCall sig args =>
      ((k.callUnboxedVoid sig args).post, (k.callUnboxedVoid sig args).creatorCalls)

/-- Run a sequence of entry-point invocations, accumulating the total
number of functorCreator_ invocations. -/
def runOps (k : KernelFunction) : List CallOp → KernelFunction × Nat
  | [] => (k, 0)
  | op :: ops =>
      let s := applyOp k op
      let r := runOps s.1 ops
      (r.1, s.2 + r.2)

/-- The shared state touched by concurrent first calls racing through
getFunctor_: the functor_ field (constructed instances are identified
by their creation order) and the number of creator invocations. -/
structure RaceSharedState where
  functor_ : Option Nat
  creatorCalls : Nat
  deriving DecidableEq, Repr

/-- One thread executing the body of getFunctor_, statement by
statement.  pc 0: about to perform the null check on functor_;
pc 1: observed null, about to invoke functorCreator_();
pc 2: holding the freshly created instance, about to store it into
functor_; pc 3: about to perform the final read (return
functor_.get()); pc 4: done, result holds the receiver returned to
this thread. -/
structure RaceThread where
  pc : Nat
  localInst : Option Nat
  result : Option Nat
  deriving DecidableEq, Repr

/-- One sequentially-consistent step of a thread executing the
unguarded check-then-create of getFunctor_ (for a wrapper whose
functorCreator_ is present, i.e. one built with a deferred factory). -/
def raceStep (s : RaceSharedState) (t : RaceThread) : RaceSharedState × RaceThread :=
  match t.pc with
  | 0 =>
    match s.functor_ with
    | some _ => (s, { t with pc := 3 })
    | none => (s, { t with pc := 1 })
  | 1 => ({ s with creatorCalls := s.creatorCalls + 1 },
          { t with pc := 2, localInst := some s.creatorCalls })
  | 2 => ({ s with functor_ := t.localInst }, { t with pc := 3 })
  | 3 => (s, { t with pc := 4, result := s.functor_ })
  | _ => (s, t)

/-- Two threads concurrently performing a first call on the same
wrapper: the shared state and both thread states. -/
structure RaceConfig where
  shared : RaceSharedState
  t1 : RaceThread
  t2 : RaceThread
  deriving DecidableEq, Repr

/-- Scheduler step: true lets thread 1 take its next step, false lets
thread 2. -/
def schedStep (c : RaceConfig) (choice : Bool) : RaceConfig :=
  if choice then
    let r := raceStep c.shared c.t1
    ⟨r.1, r.2, c.t2⟩
  else
    let r := raceStep c.shared c.t2
    ⟨r.1, c.t1, r.2⟩

/-- Run a schedule (a sequence of scheduler choices). -/
def runSchedule (c : RaceConfig) : List Bool → RaceConfig
  | [] => c
  | b :: bs => runSchedule (schedStep c b) bs

/-- Both threads start at the null check, on a wrapper whose functor_
has not yet been constructed. -/
def raceInit : RaceConfig :=
  ⟨⟨none, 0⟩, ⟨0, none, none⟩, ⟨0, none, none⟩⟩

/-- A boxed function violating the single-result stack contract: it
always leaves two values on the stack. -/
def badBoxed : BoxedKernelFunction :=
  fun _ _ => [7, 7]

theorem hashTypeListAux_eq_weightedSum (l : List CppType) :
    ∀ i, hashTypeListAux l i = sigWeightedSum l i % U64 := by
  induction l with
  | nil => intro i; simp [hashTypeListAux, sigWeightedSum]
  | cons t ts ih =>
    intro i
    rw [hashTypeListAux, sigWeightedSum, ih (i + 1)]
    generalize 1000000 * i * hashType t = a
    generalize sigWeightedSum ts (i + 1) = b
    simp [U64]

/-- Claim C5: the signature hash is the weighted sum, over the ordered
list consisting of the return type first and then the parameter types
in order, of the position-dependent multiplier 1000000 * position times
the per-type hash (type identity hash plus distinct additive weights
for the lvalue-reference, rvalue-reference, const, and volatile
qualifiers), accumulated tail-first so that the empty type list
contributes zero; the hash is that sum reduced modulo 2^64. -/
theorem hashFunctionSignature_is_weighted_sum (sig : FuncSignature) :
    hashFunctionSignature sig = sigWeightedSum (sig.ret :: sig.params) 1 % U64 ∧
    hashTypeList [] = 0 := by
  constructor
  · exact hashTypeListAux_eq_weightedSum (sig.ret :: sig.params) 1
  · rfl

/-- Claim C6: a wrapper is valid exactly when at least one of its two
entries is present, and every factory of the dispatch core produces at
least one entry (so its wrapper is valid), while the default
constructor produces none (so its wrapper is invalid). -/
theorem isValid_iff_factory_produced_entry :
    (∀ k : KernelFunction, k.isValid = true ↔
      (k.boxed_kernel_func_ ≠ none ∨ k.unboxed_kernel_func_ ≠ none)) ∧
    (∀ bf, (makeFromBoxedFunction bf).isValid = true) ∧
    (∀ fk n sig, (makeFromUnboxedFunctor fk n sig).isValid = true) ∧
    (∀ c n sig, (makeFromUnboxedFunctorCreator c n sig).isValid = true) ∧
    (∀ fk n sig, (makeFromUnboxedOnlyFunctor fk n sig).isValid = true) ∧
    (∀ f n sig, (makeFromUnboxedFunction f n sig).isValid = true) ∧
    (∀ f n sig, (makeFromUnboxedOnlyFunction f n sig).isValid = true) ∧
    (∀ f n sig, (makeFromUnboxedRuntimeFunction f n sig).isValid = true) ∧
    (∀ f n sig, (makeFromUnboxedLambda f n sig).isValid = true) ∧
    KernelFunction.defaultCtor.isValid = false := by
  refine ⟨?_, fun bf => rfl, fun fk n sig => rfl, fun c n sig => rfl,
    fun fk n sig => rfl, fun f n sig => rfl, fun f n sig => rfl,
    fun f n sig => rfl, fun f n sig => rfl, rfl⟩
  intro k
  cases hb : k.boxed_kernel_func_ <;> cases hu : k.unboxed_kernel_func_ <;>
    simp [KernelFunction.isValid, hb, hu]

/-- Witness for claim C6: the boxed-only scenario wrapper has a boxed
entry, hence is valid. -/
theorem isValid_iff_factory_produced_entry_witness :
    (makeFromBoxedFunction doubleBoxed).isValid = true :=
  isValid_iff_factory_produced_entry.2.1 doubleBoxed

/-- Claim C7: callBoxed on a wrapper without a boxed entry fails
fatally, reporting an uninitialized wrapper when the unboxed entry is
also absent and an unsupported boxed calling convention when only an
unboxed entry exists; with a boxed entry present it resolves the
kernel-storage receiver and invokes the boxed entry on it with the
given stack. -/
theorem callBoxed_dispatch (k : KernelFunction) (stack : Stack) :
    (k.boxed_kernel_func_ = none → k.unboxed_kernel_func_ = none →
      k.callBoxed stack = ⟨.error .callBoxedUninitialized, k, 0⟩) ∧
    (k.boxed_kernel_func_ = none → k.unboxed_kernel_func_ ≠ none →
      k.callBoxed stack = ⟨.error .callBoxedUnboxedOnly, k, 0⟩) ∧
    (∀ bf, k.boxed_kernel_func_ = some bf →
      k.callBoxed stack =
        ⟨.ok (bf k.getFunctor_.receiver stack), k.getFunctor_.post,
          k.getFunctor_.creatorCalls⟩) := by
  refine ⟨?_, ?_, ?_⟩
  · intro hb hu
    simp [KernelFunction.callBoxed, hb, hu]
  · intro hb hu
    cases hu2 : k.unboxed_kernel_func_ with
    | none => exact absurd hu2 hu
    | some uf => simp [KernelFunction.callBoxed, hb, hu2]
  · intro bf hb
    simp [KernelFunction.callBoxed, hb]

/-- Witness for claim C7: the default-constructed wrapper has neither
entry, so callBoxed reports the uninitialized-wrapper failure. -/
theorem callBoxed_dispatch_witness :
    KernelFunction.defaultCtor.callBoxed [] =
      ⟨.error .callBoxedUninitialized, KernelFunction.defaultCtor, 0⟩ :=
  (callBoxed_dispatch KernelFunction.defaultCtor []).1 rfl rfl

/-- Claim C10: on a wrapper built from a boxed function pointer only,
resolving the kernel-storage receiver never fails: getFunctor_ returns
a null receiver and an unchanged wrapper, and callBoxed proceeds to
invoke the boxed entry with that null receiver. -/
theorem boxed_only_null_receiver (bf : BoxedKernelFunction) (stack : Stack) :
    (makeFromBoxedFunction bf).getFunctor_ =
      ⟨none, makeFromBoxedFunction bf, 0⟩ ∧
    (makeFromBoxedFunction bf).callBoxed stack =
      ⟨.ok (bf none stack), makeFromBoxedFunction bf, 0⟩ :=
  ⟨rfl, rfl⟩

/-- Claim C9 (documented race in the source): getFunctor_ performs an
unguarded check-then-create, so under a sequentially-consistent
interleaving of two concurrent first calls on the same
deferred-factory wrapper the factory closure executes twice and the
two threads observe different constructed instances, contradicting
exactly-once linearizable memoization. -/
theorem lazy_init_race :
    (runSchedule raceInit
      [true, false, true, true, true, false, false, false]).shared.creatorCalls = 2 ∧
    (runSchedule raceInit
      [true, false, true, true, true, false, false, false]).t1.result = some 0 ∧
    (runSchedule raceInit
      [true, false, true, true, true, false, false, false]).t2.result = some 1 :=
  ⟨rfl, rfl, rfl⟩

/-- Claim C1: callUnboxed prefers the unboxed entry when present
(direct fast path), falls back to the reverse bridge through the boxed
entry when only that is present, and fails fatally when neither entry
is present; concretely, the boxed-only wrapper around the doubling
boxed function returns 8 from callUnboxed on 4 via the reverse bridge,
while callUnboxedOnly on 4 fails fatally for lack of an unboxed
entry. -/
theorem callUnboxed_dispatch (k : KernelFunction) (sig : FuncSignature) (args : List IValue)
    (hsig : k.signatureMismatch sig = false) :
    (∀ uf, k.unboxed_kernel_func_ = some uf →
      k.callUnboxed sig args =
        ⟨.ok (uf k.getFunctor_.receiver args), k.getFunctor_.post,
          k.getFunctor_.creatorCalls⟩) ∧
    (∀ bf, k.unboxed_kernel_func_ = none → k.boxed_kernel_func_ = some bf →
      (k.callUnboxed sig args).res =
        (boxAndCallBoxedFunc bf k.getFunctor_.receiver args).map some) ∧
    (k.unboxed_kernel_func_ = none → k.boxed_kernel_func_ = none →
      k.callUnboxed sig args = ⟨.error .callUnboxedUninitialized, k, 0⟩) ∧
    ((makeFromBoxedFunction doubleBoxed).callUnboxed sigIntInt [4]).res = .ok (some 8) ∧
    ((makeFromBoxedFunction doubleBoxed).callUnboxedOnly sigIntInt [4]).res =
      .error .noUnboxedVersion := by
  refine ⟨?_, ?_, ?_, rfl, rfl⟩
  · intro uf hu
    simp [KernelFunction.callUnboxed, hsig, hu]
  · intro bf hu hb
    cases hbr : boxAndCallBoxedFunc bf k.getFunctor_.receiver args with
    | ok v => simp [KernelFunction.callUnboxed, hsig, hu, hb, hbr, Except.map]
    | error e => simp [KernelFunction.callUnboxed, hsig, hu, hb, hbr, Except.map]
  · intro hu hb
    simp [KernelFunction.callUnboxed, hsig, hu, hb]

/-- Witness for claim C1: the boxed-only doubling wrapper, called
unboxed on 4, returns 8 through the reverse bridge. -/
theorem callUnboxed_dispatch_witness :
    ((makeFromBoxedFunction doubleBoxed).callUnboxed sigIntInt [4]).res = .ok (some 8) :=
  (callUnboxed_dispatch (makeFromBoxedFunction doubleBoxed) sigIntInt [4] rfl).2.2.2.1

/-- Claim C2: every wrapper supporting both calling conventions — one
built from an eager kernel-storage instance or from a deferred creator
of one — yields the same logical result whether invoked via the typed
fast path or via the boxed path with the same logical arguments: the
typed call returns exactly the functor's result, and the boxed call
leaves exactly that result on the stack. -/
theorem cross_path_equivalence (fk : OperatorKernel) (c : Unit → OperatorKernel)
    (n : Nat) (sig : FuncSignature) (args : List IValue) (h : args.length = n) :
    ((makeFromUnboxedFunctor fk n sig).callUnboxed sig args).res = .ok (fk.call args) ∧
    ((makeFromUnboxedFunctor fk n sig).callBoxed args).res = .ok ((fk.call args).toList) ∧
    ((makeFromUnboxedFunctorCreator c n sig).callUnboxed sig args).res =
      .ok ((c ()).call args) ∧
    ((makeFromUnboxedFunctorCreator c n sig).callBoxed args).res =
      .ok (((c ()).call args).toList) := by
  subst h
  refine ⟨?_, ?_, ?_, ?_⟩
  · simp [KernelFunction.callUnboxed, KernelFunction.signatureMismatch,
      makeFromUnboxedFunctor, KernelFunction.getFunctor_, wrap_kernel_functor_unboxed]
  · simp [KernelFunction.callBoxed, makeFromUnboxedFunctor, KernelFunction.getFunctor_,
      wrap_kernel_functor_boxed, Nat.sub_self]
  · simp [KernelFunction.callUnboxed, KernelFunction.signatureMismatch,
      makeFromUnboxedFunctorCreator, KernelFunction.getFunctor_,
      wrap_kernel_functor_unboxed]
  · simp [KernelFunction.callBoxed, makeFromUnboxedFunctorCreator,
      KernelFunction.getFunctor_, wrap_kernel_functor_boxed, Nat.sub_self]

/-- Witness for claim C2: the sum kernel on arguments 2 and 3 returns
5 via the typed path and leaves the stack holding 5 via the boxed
path, both when registered eagerly and when registered through a
deferred creator. -/
theorem cross_path_equivalence_witness :
    ((makeFromUnboxedFunctor sumKernel 2 sigIntIntInt).callUnboxed sigIntIntInt [2, 3]).res =
      .ok (some 5) ∧
    ((makeFromUnboxedFunctor sumKernel 2 sigIntIntInt).callBoxed [2, 3]).res = .ok [5] ∧
    ((makeFromUnboxedFunctorCreator (fun _ => sumKernel) 2 sigIntIntInt).callUnboxed
      sigIntIntInt [2, 3]).res = .ok (some 5) ∧
    ((makeFromUnboxedFunctorCreator (fun _ => sumKernel) 2 sigIntIntInt).callBoxed
      [2, 3]).res = .ok [5] :=
  cross_path_equivalence sumKernel (fun _ => sumKernel) 2 sigIntIntInt [2, 3] rfl

/-- Claim C3: the typed factories record the hash of the
construction-time signature as the fingerprint, and every typed call
on a fingerprinted wrapper whose declared signature hashes differently
fails fatally with the wrong-argument-types assertion, leaving the
wrapper untouched and invoking no kernel; a wrapper built from a bare
boxed function records no fingerprint, the check never fires, and no
typed call on it can fail with the wrong-argument-types assertion. -/
theorem signature_fingerprint_check (k : KernelFunction) (sig ctorSig : FuncSignature)
    (args : List IValue) :
    (∀ fk n, (makeFromUnboxedFunctor fk n ctorSig).signature_hash_ =
      some (hashFunctionSignature ctorSig)) ∧
    (∀ c n, (makeFromUnboxedFunctorCreator c n ctorSig).signature_hash_ =
      some (hashFunctionSignature ctorSig)) ∧
    (∀ fk n, (makeFromUnboxedOnlyFunctor fk n ctorSig).signature_hash_ =
      some (hashFunctionSignature ctorSig)) ∧
    (k.signature_hash_ = some (hashFunctionSignature ctorSig) →
      hashFunctionSignature sig ≠ hashFunctionSignature ctorSig →
      k.callUnboxed sig args = ⟨.error .wrongSignature, k, 0⟩ ∧
      k.callUnboxedOnly sig args = ⟨.error .wrongSignature, k, 0⟩ ∧
      k.callUnboxedVoid sig args = ⟨.error .wrongSignature, k, 0⟩) ∧
    (∀ bf, (makeFromBoxedFunction bf).signature_hash_ = none) ∧
    (k.signature_hash_ = none →
      k.signatureMismatch sig = false ∧
      (k.callUnboxed sig args).res ≠ .error .wrongSignature ∧
      (k.callUnboxedOnly sig args).res ≠ .error .wrongSignature) := by
  refine ⟨fun fk n => rfl, fun c n => rfl, fun fk n => rfl, ?_, fun bf => rfl, ?_⟩
  · intro hsh hne
    have hmis : k.signatureMismatch sig = true := by
      simp [KernelFunction.signatureMismatch, hsh, hne]
    exact ⟨by simp [KernelFunction.callUnboxed, hmis],
      by simp [KernelFunction.callUnboxedOnly, hmis],
      by simp [KernelFunction.callUnboxedVoid, hmis]⟩
  · intro hnone
    have hmis : k.signatureMismatch sig = false := by
      simp [KernelFunction.signatureMismatch, hnone]
    refine ⟨hmis, ?_, ?_⟩
    · cases hu : k.unboxed_kernel_func_ with
      | some uf => simp [KernelFunction.callUnboxed, hmis, hu]
      | none =>
        cases hb : k.boxed_kernel_func_ with
        | none => simp [KernelFunction.callUnboxed, hmis, hu, hb]
        | some bf =>
          rcases hl : bf k.getFunctor_.receiver args with _ | ⟨x, _ | ⟨y, ys⟩⟩ <;>
            simp [KernelFunction.callUnboxed, hmis, hu, hb, boxAndCallBoxedFunc, hl]
    · cases hu : k.unboxed_kernel_func_ with
      | some uf => simp [KernelFunction.callUnboxedOnly, hmis, hu]
      | none => simp [KernelFunction.callUnboxedOnly, hmis, hu]

/-- Witness for claim C3: the sum-kernel wrapper is fingerprinted with
the two-argument signature, so a typed call declaring the one-argument
signature fails fatally with the wrong-argument-types assertion. -/
theorem signature_fingerprint_check_witness :
    (makeFromUnboxedFunctor sumKernel 2 sigIntIntInt).callUnboxedOnly sigIntInt [4] =
      ⟨.error .wrongSignature, makeFromUnboxedFunctor sumKernel 2 sigIntIntInt, 0⟩ :=
  ((signature_fingerprint_check (makeFromUnboxedFunctor sumKernel 2 sigIntIntInt)
    sigIntInt sigIntIntInt [4]).2.2.2.1 rfl (by decide)).2.1

/-- Claim C4: a reverse-bridged typed call requires the boxed entry to
leave exactly one value on the transient stack when the declared
return type is a value, and exactly zero values when it is void; any
other stack size is a fatal internal-consistency error, and in the
value case the single entry is the extracted result. -/
theorem reverse_bridge_stack_arity (k : KernelFunction) (sig : FuncSignature)
    (args : List IValue) (bf : BoxedKernelFunction)
    (hsig : k.signatureMismatch sig = false)
    (hu : k.unboxed_kernel_func_ = none)
    (hb : k.boxed_kernel_func_ = some bf) :
    (∀ x, bf k.getFunctor_.receiver args = [x] →
      (k.callUnboxed sig args).res = .ok (some x)) ∧
    ((bf k.getFunctor_.receiver args).length ≠ 1 →
      (k.callUnboxed sig args).res = .error .boxedStackSizeNotOne) ∧
    (bf k.getFunctor_.receiver args = [] →
      (k.callUnboxedVoid sig args).res = .ok ()) ∧
    (bf k.getFunctor_.receiver args ≠ [] →
      (k.callUnboxedVoid sig args).res = .error .boxedStackNotEmpty) := by
  refine ⟨?_, ?_, ?_, ?_⟩
  · intro x hx
    simp [KernelFunction.callUnboxed, hsig, hu, hb, boxAndCallBoxedFunc, hx]
  · intro hlen
    rcases hl : bf k.getFunctor_.receiver args with _ | ⟨x, _ | ⟨y, ys⟩⟩
    · simp [KernelFunction.callUnboxed, hsig, hu, hb, boxAndCallBoxedFunc, hl]
    · exact absurd (by rw [hl]; rfl) hlen
    · simp [KernelFunction.callUnboxed, hsig, hu, hb, boxAndCallBoxedFunc, hl]
  · intro hnil
    simp [KernelFunction.callUnboxedVoid, hsig, hu, hb, boxAndCallBoxedFuncVoid, hnil]
  · intro hne
    rcases hl : bf k.getFunctor_.receiver args with _ | ⟨x, xs⟩
    · exact absurd hl hne
    · simp [KernelFunction.callUnboxedVoid, hsig, hu, hb, boxAndCallBoxedFuncVoid, hl]

/-- Witness for claim C4: a boxed function leaving two values on the
stack makes the reverse-bridged value-returning call fail with the
stack-size assertion. -/
theorem reverse_bridge_stack_arity_witness :
    ((makeFromBoxedFunction badBoxed).callUnboxed sigIntInt [4]).res =
      .error .boxedStackSizeNotOne :=
  (reverse_bridge_stack_arity (makeFromBoxedFunction badBoxed) sigIntInt [4] badBoxed
    rfl rfl rfl).2.1 (by decide)

theorem getFunctor_preserves_fields (k : KernelFunction) :
    k.getFunctor_.post.functorCreator_ = k.functorCreator_ ∧
    k.getFunctor_.post.boxed_kernel_func_ = k.boxed_kernel_func_ ∧
    k.getFunctor_.post.unboxed_kernel_func_ = k.unboxed_kernel_func_ ∧
    k.getFunctor_.post.signature_hash_ = k.signature_hash_ := by
  cases hf : k.functor_ <;> cases hc : k.functorCreator_ <;>
    simp [KernelFunction.getFunctor_, hf, hc]

theorem getFunctor_cases (k : KernelFunction) :
    (k.getFunctor_.post = k ∧ k.getFunctor_.creatorCalls = 0) ∨
    (k.functor_ = none ∧ ∃ c, k.functorCreator_ = some c ∧
      k.getFunctor_.post = { k with functor_ := some (c ()) } ∧
      k.getFunctor_.creatorCalls = 1) := by
  cases hf : k.functor_ with
  | some f => exact Or.inl (by simp [KernelFunction.getFunctor_, hf])
  | none =>
    cases hc : k.functorCreator_ with
    | none => exact Or.inl (by simp [KernelFunction.getFunctor_, hf, hc])
    | some c =>
      refine Or.inr ⟨rfl, c, rfl, ?_, ?_⟩ <;>
        simp [KernelFunction.getFunctor_, hf, hc]

theorem applyOp_effect (k : KernelFunction) (op : CallOp) :
    applyOp k op = (k, 0) ∨
    applyOp k op = (k.getFunctor_.post, k.getFunctor_.creatorCalls) := by
  cases op with
  | boxedCall s =>
    cases hb : k.boxed_kernel_func_ with
    | none =>
      cases hu : k.unboxed_kernel_func_ <;>
        exact Or.inl (by simp [applyOp, KernelFunction.callBoxed, hb, hu])
    | some bf => exact Or.inr (by simp [applyOp, KernelFunction.callBoxed, hb])
  | unboxedOnlyCall sig args =>
    cases hs : k.signatureMismatch sig with
    | true => exact Or.inl (by simp [applyOp, KernelFunction.callUnboxedOnly, hs])
    | false =>
      cases hu : k.unboxed_kernel_func_ with
      | none => exact Or.inl (by simp [applyOp, KernelFunction.callUnboxedOnly, hs, hu])
      | some uf => exact Or.inr (by simp [applyOp, KernelFunction.callUnboxedOnly, hs, hu])
  | unboxedCall sig args =>
    cases hs : k.signatureMismatch sig with
    | true => exact Or.inl (by simp [applyOp, KernelFunction.callUnboxed, hs])
    | false =>
      cases hu : k.unboxed_kernel_func_ with
      | some uf => exact Or.inr (by simp [applyOp, KernelFunction.callUnboxed, hs, hu])
      | none =>
        cases hb : k.boxed_kernel_func_ with
        | none => exact Or.inl (by simp [applyOp, KernelFunction.callUnboxed, hs, hu, hb])
        | some bf =>
          refine Or.inr ?_
          cases hbr : boxAndCallBoxedFunc bf k.getFunctor_.receiver args <;>
            simp [applyOp, KernelFunction.callUnboxed, hs, hu, hb, hbr]
  | unboxedVoidCall sig args =>
    cases hs : k.signatureMismatch sig with
    | true => exact Or.inl (by simp [applyOp, KernelFunction.callUnboxedVoid, hs])
    | false =>
      cases hu : k.unboxed_kernel_func_ with
      | some uf => exact Or.inr (by simp [applyOp, KernelFunction.callUnboxedVoid, hs, hu])
      | none =>
        cases hb : k.boxed_kernel_func_ with
        | none => exact Or.inl (by simp [applyOp, KernelFunction.callUnboxedVoid, hs, hu, hb])
        | some bf =>
          refine Or.inr ?_
          cases hbr : boxAndCallBoxedFuncVoid bf k.getFunctor_.receiver args <;>
            simp [applyOp, KernelFunction.callUnboxedVoid, hs, hu, hb, hbr]

theorem applyOp_creator_facts (k : KernelFunction) (op : CallOp) :
    (applyOp k op).2 ≤ 1 ∧
    (k.functor_.isSome = true →
      (applyOp k op).2 = 0 ∧ (applyOp k op).1.functor_ = k.functor_) ∧
    ((applyOp k op).2 = 0 → (applyOp k op).1.functor_ = k.functor_) ∧
    ((applyOp k op).2 ≠ 0 → (applyOp k op).1.functor_.isSome = true) := by
  rcases applyOp_effect k op with h | h
  · rw [h]
    exact ⟨Nat.zero_le 1, fun _ => ⟨rfl, rfl⟩, fun _ => rfl, fun hz => absurd rfl hz⟩
  · rw [h]
    rcases getFunctor_cases k with ⟨hp, hz⟩ | ⟨hf, c, hc, hp, hz⟩
    · rw [hp, hz]
      exact ⟨Nat.zero_le 1, fun _ => ⟨rfl, rfl⟩, fun _ => rfl, fun hne => absurd rfl hne⟩
    · rw [hp, hz]
      refine ⟨Nat.le_refl 1, ?_, ?_, fun _ => rfl⟩
      · intro hsome
        rw [hf] at hsome
        exact absurd hsome (by simp)
      · intro h0
        exact absurd h0 one_ne_zero

theorem runOps_creator_le_one (ops : List CallOp) :
    ∀ k : KernelFunction, (runOps k ops).2 ≤ 1 ∧
      (k.functor_.isSome = true → (runOps k ops).2 = 0) := by
  induction ops with
  | nil => intro k; exact ⟨Nat.zero_le 1, fun _ => rfl⟩
  | cons op ops ih =>
    intro k
    obtain ⟨h1, h2, h3, h4⟩ := applyOp_creator_facts k op
    obtain ⟨ih1, ih2⟩ := ih (applyOp k op).1
    have hrun : (runOps k (op :: ops)).2 =
        (applyOp k op).2 + (runOps (applyOp k op).1 ops).2 := rfl
    constructor
    · rw [hrun]
      by_cases hz : (applyOp k op).2 = 0
      · rw [hz]
        simpa using ih1
      · have h0 := ih2 (h4 hz)
        omega
    · intro hsome
      rw [hrun, (h2 hsome).1]
      have hsome2 : (applyOp k op).1.functor_.isSome = true := by
        rw [(h2 hsome).2]; exact hsome
      simp [ih2 hsome2]

/-- Claim C8: one entry-point invocation never changes the creator,
the two entries, or the fingerprint; the functor field is mutated at
most from empty to populated (a populated functor is observed
unchanged by every later call, with the creator left uninvoked); and
over any sequence of calls the deferred factory closure is invoked at
most once. -/
theorem functor_lazy_init_at_most_once (k : KernelFunction) (op : CallOp)
    (ops : List CallOp) :
    ((applyOp k op).1.functorCreator_ = k.functorCreator_ ∧
      (applyOp k op).1.boxed_kernel_func_ = k.boxed_kernel_func_ ∧
      (applyOp k op).1.unboxed_kernel_func_ = k.unboxed_kernel_func_ ∧
      (applyOp k op).1.signature_hash_ = k.signature_hash_) ∧
    (∀ f, k.functor_ = some f →
      (applyOp k op).1.functor_ = some f ∧ (applyOp k op).2 = 0) ∧
    ((applyOp k op).1.functor_ = k.functor_ ∨
      (k.functor_ = none ∧ ∃ c, k.functorCreator_ = some c ∧
        (applyOp k op).1.functor_ = some (c ()))) ∧
    (runOps k ops).2 ≤ 1 := by
  refine ⟨?_, ?_, ?_, (runOps_creator_le_one ops k).1⟩
  · rcases applyOp_effect k op with h | h
    · rw [h]
      exact ⟨rfl, rfl, rfl, rfl⟩
    · rw [h]
      exact getFunctor_preserves_fields k
  · intro f hf
    obtain ⟨h1, h2, h3, h4⟩ := applyOp_creator_facts k op
    have hsome : k.functor_.isSome = true := by rw [hf]; rfl
    obtain ⟨hz, hfp⟩ := h2 hsome
    exact ⟨by rw [hfp, hf], hz⟩
  · rcases applyOp_effect k op with h | h
    · rw [h]
      exact Or.inl rfl
    · rw [h]
      rcases getFunctor_cases k with ⟨hp, _⟩ | ⟨hf, c, hc, hp, _⟩
      · rw [hp]
        exact Or.inl rfl
      · rw [hp]
        exact Or.inr ⟨hf, c, hc, rfl⟩

/-- Witness for claim C8: on the eagerly-constructed sum-kernel
wrapper (functor already populated) a boxed call invokes the factory
closure zero times and leaves the stored instance unchanged. -/
theorem functor_lazy_init_at_most_once_witness :
    (applyOp (makeFromUnboxedFunctor sumKernel 2 sigIntIntInt)
      (CallOp.boxedCall [2, 3])).1.functor_ = some sumKernel ∧
    (applyOp (makeFromUnboxedFunctor sumKernel 2 sigIntIntInt)
      (CallOp.boxedCall [2, 3])).2 = 0 :=
  (functor_lazy_init_at_most_once (makeFromUnboxedFunctor sumKernel 2 sigIntIntInt)
    (CallOp.boxedCall [2, 3]) []).2.1 sumKernel rfl
